import Mathlib

/-!
Shallow embedding of the diagnosis-record web service:
  * `PredictionClient` (src/services/PredictionClient.js) — HTTP client wrapper
    around the remote prediction endpoint;
  * `DiagnosisRepository` (the JSON-file-backed record store) — CRUD over a
    persisted list of records.

JavaScript runtime values are modelled by `JsValue`; objects are association
lists of string keys; object spread-literals are modelled by `objSpread`;
`parseInt` on strings by `parseIntStr`.  Effects are made explicit: the
outbound HTTP calls an operation issues are returned as a list of
`OutboundCall`, the file write performed by `_writeAll` is the list returned
by each repository operation, and `Date.now()` is an explicit argument.
-/

namespace HepSys

/-- JavaScript runtime values, as far as this program manipulates them:
null, undefined, booleans, (integer) numbers, strings, arrays and plain
objects (association lists of string keys, insertion-ordered). -/
inductive JsValue where
  | vNull
  | vUndefined
  | vBool (b : Bool)
  | vNum (n : Int)
  | vStr (s : String)
  | vArr (elems : List JsValue)
  | vObj (fields : List (String × JsValue))

open JsValue

/-- A JavaScript plain object: insertion-ordered key/value pairs. -/
abbrev JsObj := List (String × JsValue)

/-- JavaScript truthiness: `!payload` is true exactly on the falsy values
null, undefined, false, 0 and the empty string (NaN is not representable
here).  Objects and arrays are always truthy. -/
def isFalsy : JsValue → Bool
  | vNull => true
  | vUndefined => true
  | vBool b => !b
  | vNum n => n == 0
  | vStr s => s == ""
  | vArr _ => false
  | vObj _ => false

/-- The JavaScript `typeof` operator on the modelled values; note
`typeof null`, `typeof []` and `typeof {}` are all "object". -/
def jsTypeof : JsValue → String
  | vNull => "object"
  | vUndefined => "undefined"
  | vBool _ => "boolean"
  | vNum _ => "number"
  | vStr _ => "string"
  | vArr _ => "object"
  | vObj _ => "object"

/-- Property read `o.k` on an object: the value at key `k`, `none` standing
for JavaScript `undefined` when the key is absent.  JavaScript objects have
unique keys, so reading the first binding is exact. -/
def getField : JsObj → String → Option JsValue
  | [], _ => none
  | p :: rest, k => if p.1 = k then some p.2 else getField rest k

/-- Assigning key `k` to `v` on an object, as object spread does one key at
a time: an existing key keeps its position and gets the new value, a new key
is appended at the end. -/
def objSet : JsObj → String → JsValue → JsObj
  | [], k, v => [(k, v)]
  | p :: rest, k, v => if p.1 = k then (k, v) :: rest else p :: objSet rest k v

/-- The object literal `\x7b ...base, ...extra \x7d`: start from `base` and
assign `extra`'s keys in order, later keys overriding earlier values. -/
def objSpread (base : JsObj) (extra : JsObj) : JsObj :=
  extra.foldl (fun acc kv => objSet acc kv.1 kv.2) base

/-- Whitespace skipped by `parseInt` before reading digits. -/
def jsWhitespace (c : Char) : Bool :=
  c = ' ' || c = '\t' || c = '\n' || c = '\r'

/-- Leading decimal digits of a character list. -/
def decDigits (cs : List Char) : List Char :=
  cs.takeWhile (fun c => c.isDigit)

/-- Numeric value of a decimal digit string. -/
def decValue (cs : List Char) : Nat :=
  cs.foldl (fun a c => a * 10 + (c.toNat - 48)) 0

/-- Hexadecimal digit test, for `parseInt`'s `0x` form. -/
def isHexDigit (c : Char) : Bool :=
  c.isDigit || ('a' ≤ c && c ≤ 'f') || ('A' ≤ c && c ≤ 'F')

/-- Numeric value of one hexadecimal digit. -/
def hexDigitValue (c : Char) : Nat :=
  if c.isDigit then c.toNat - 48
  else if 'a' ≤ c && c ≤ 'f' then c.toNat - 87
  else c.toNat - 55

/-- The longest numeric prefix `parseInt` reads after sign handling:
a `0x`/`0X` prefix switches to hexadecimal, otherwise leading decimal
digits; `none` when no digit is found (`NaN`). -/
def leadingNat (cs : List Char) : Option Nat :=
  match cs with
  | '0' :: 'x' :: rest =>
      let ds := rest.takeWhile isHexDigit
      if ds.isEmpty then none else some (ds.foldl (fun a c => a * 16 + hexDigitValue c) 0)
  | '0' :: 'X' :: rest =>
      let ds := rest.takeWhile isHexDigit
      if ds.isEmpty then none else some (ds.foldl (fun a c => a * 16 + hexDigitValue c) 0)
  | _ =>
      let ds := decDigits cs
      if ds.isEmpty then none else some (decValue ds)

/-- JavaScript `parseInt(s)` on a string argument (the identifiers the HTTP
layer passes are strings): skip whitespace, optional sign, then the longest
numeric prefix; `none` models the `NaN` result. -/
def parseIntStr (s : String) : Option Int :=
  match s.data.dropWhile jsWhitespace with
  | '-' :: rest => (leadingNat rest).map (fun n => -(n : Int))
  | '+' :: rest => (leadingNat rest).map (fun n => (n : Int))
  | rest => (leadingNat rest).map (fun n => (n : Int))

/-- The strict comparison `d.id === key` used by `update`/`delete`, where
`key = parseInt(id)` (`none` = `NaN`): true only when the stored `id` is a
number equal to a successfully parsed key.  `NaN` compares unequal to
everything, and a non-number stored `id` is never strictly equal to a
number. -/
def idMatches (d : JsObj) (key : Option Int) : Bool :=
  match getField d "id", key with
  | some (vNum n), some k => n == k
  | _, _ => false

/-- Outcome of one outbound HTTP request, as seen by the axios caller. -/
inductive TransportResult where
  | success (body : JsValue)
  | failure (message : String)

/-- One outbound HTTP POST: URL, body and the per-call timeout in ms. -/
structure OutboundCall where
  url : String
  body : JsValue
  timeoutMs : Nat

/-- The PredictionClient instance: holds only the normalized base URL. -/
structure PredictionClient where
  baseUrl : String

/-- Constructor logic: strips exactly one trailing slash from the base URL. -/
def PredictionClient.make (baseUrl : String) : PredictionClient :=
  ⟨if baseUrl.endsWith "/" then baseUrl.dropRight 1 else baseUrl⟩

/-- Embeds `diagnose(payload)`: rejects a falsy or non-object payload with the
invalid-payload error before any request; otherwise posts the payload to
`base + "/predict"` with timeout 8000 ms, returning the response body, or
failing with the transport failure's message embedded after the fixed
prefix.  The first component lists the outbound calls issued. -/
def PredictionClient.diagnose (c : PredictionClient) (payload : JsValue)
    (transport : TransportResult) : List OutboundCall × Except String JsValue :=
  if isFalsy payload || jsTypeof payload != "object" then
    ([], Except.error "Payload inválido para predição.")
  else
    let call : OutboundCall := ⟨c.baseUrl ++ "/predict", payload, 8000⟩
    match transport with
    | TransportResult.success body => ([call], Except.ok body)
    | TransportResult.failure m =>
        ([call], Except.error ("Falha ao chamar serviço de predição: " ++ m))

/-- Embeds `retrain()`: posts an empty object to `base + "/train"` with timeout
20000 ms; on failure the error message embeds the cause after the fixed
prefix. -/
def PredictionClient.retrain (c : PredictionClient)
    (transport : TransportResult) : List OutboundCall × Except String JsValue :=
  let call : OutboundCall := ⟨c.baseUrl ++ "/train", vObj [], 20000⟩
  match transport with
  | TransportResult.success body => ([call], Except.ok body)
  | TransportResult.failure m =>
      ([call], Except.error ("Falha ao re-treinar modelo: " ++ m))

/-- State of the backing JSON file as `_readAll` encounters it: the read
itself can fail (file missing or unreadable), `JSON.parse` can fail
(corrupt), or parsing yields some value. -/
inductive StorageState where
  | missing
  | unreadable
  | corrupt
  | holds (v : JsValue)

namespace DiagnosisRepository

/-- Embeds `_readAll()`: any read or parse failure is caught and yields `[]`
(after logging a diagnostic); a parsed value that is not an array also
yields `[]`; a parsed array yields its elements. -/
def readAll : StorageState → List JsValue
  | StorageState.missing => []
  | StorageState.unreadable => []
  | StorageState.corrupt => []
  | StorageState.holds v =>
      match v with
      | vArr elems => elems
      | _ => []

/-- Embeds `list()`: returns `_readAll()`. -/
def list (st : StorageState) : List JsValue :=
  readAll st

/-- Embeds `create(doc)` on the collection read from storage, with `Date.now()`
passed explicitly as `now`: builds `novo = \x7b id: now, ...doc \x7d`,
appends it, and returns it together with the collection handed to
`_writeAll`. -/
def create (now : Int) (doc : JsObj) (l : List JsObj) : JsObj × List JsObj :=
  let novo := objSpread [("id", vNum now)] doc
  (novo, l ++ [novo])

/-- Embeds `update(id, patch)` on the collection read from storage: each record
whose `id` strictly equals `parseInt(id)` is replaced by
`\x7b ...d, ...patch \x7d`; the result is handed to `_writeAll`
unconditionally (the function then returns `true` to its caller). -/
def update (idArg : String) (patch : JsObj) (l : List JsObj) : List JsObj :=
  l.map (fun d => if idMatches d (parseIntStr idArg) then objSpread d patch else d)

/-- Embeds `delete(id)` on the collection read from storage: keeps the records
whose `id` is not strictly equal to `parseInt(id)`; the result is handed to
`_writeAll` unconditionally (the function then returns `true`). -/
def delete (idArg : String) (l : List JsObj) : List JsObj :=
  l.filter (fun d => !(idMatches d (parseIntStr idArg)))

end DiagnosisRepository

/-! Helper lemmas about object field lookup, assignment and spread. -/

/-- Looking up a key that occurs nowhere in an object yields `undefined`. -/
theorem getField_eq_none_of_not_mem (o : JsObj) (k : String)
    (h : k ∉ o.map Prod.fst) : getField o k = none := by
  induction o with
  | nil => rfl
  | cons p rest ih =>
    simp only [List.map_cons, List.mem_cons, not_or] at h
    have hp : p.1 ≠ k := Ne.symm h.1
    simp [getField, hp, ih h.2]

/-- After assigning key `k`, reading `k` yields the assigned value. -/
theorem getField_objSet_self (o : JsObj) (k : String) (v : JsValue) :
    getField (objSet o k v) k = some v := by
  induction o with
  | nil => simp [objSet, getField]
  | cons p rest ih =>
    by_cases hp : p.1 = k
    · simp [objSet, getField, hp]
    · simp [objSet, getField, hp, ih]

/-- Assigning key `k` leaves every other key's value unchanged. -/
theorem getField_objSet_ne (o : JsObj) (k k' : String) (v : JsValue) (h : k' ≠ k) :
    getField (objSet o k v) k' = getField o k' := by
  induction o with
  | nil => simp [objSet, getField, Ne.symm h]
  | cons p rest ih =>
    by_cases hp : p.1 = k
    · have hq : p.1 ≠ k' := by rw [hp]; exact Ne.symm h
      simp [objSet, getField, hp, Ne.symm h, hq]
    · by_cases hq : p.1 = k'
      · simp [objSet, getField, hp, hq, h]
      · simp [objSet, getField, hp, hq, ih]

/-- Spreading an object that does not bind `k` leaves `k`'s value alone. -/
theorem getField_objSpread_not_mem (base : JsObj) (extra : JsObj) (k : String)
    (h : k ∉ extra.map Prod.fst) :
    getField (objSpread base extra) k = getField base k := by
  induction extra generalizing base with
  | nil => rfl
  | cons kv rest ih =>
    simp only [List.map_cons, List.mem_cons, not_or] at h
    have hstep : objSpread base (kv :: rest) = objSpread (objSet base kv.1 kv.2) rest := rfl
    rw [hstep, ih (objSet base kv.1 kv.2) h.2, getField_objSet_ne _ _ _ _ h.1]

/-- Object spread with duplicate-free keys (JavaScript objects always are):
the spread object's binding wins when present, otherwise the base's binding
shows through. -/
theorem getField_objSpread (base : JsObj) (extra : JsObj) (k : String)
    (h : (extra.map Prod.fst).Nodup) :
    getField (objSpread base extra) k = (getField extra k).or (getField base k) := by
  induction extra generalizing base with
  | nil => simp [objSpread, getField]
  | cons kv rest ih =>
    simp only [List.map_cons, List.nodup_cons] at h
    have hstep : objSpread base (kv :: rest) = objSpread (objSet base kv.1 kv.2) rest := rfl
    by_cases hk : kv.1 = k
    · rw [hstep, getField_objSpread_not_mem _ _ _ (hk ▸ h.1), hk, getField_objSet_self]
      simp [getField, hk]
    · rw [hstep, ih _ h.2, getField_objSet_ne _ _ _ _ (Ne.symm hk)]
      simp [getField, hk]

end HepSys

namespace HepSys

open JsValue

/-- Claim C1 counterexample: `create` builds the record with the literal
`\x7b id: Date.now(), ...doc \x7d`, so a caller-supplied `id` overrides the
store-assigned one: at `now = 1000` and `doc = \x7b id: 777 \x7d` the returned
record's `id` is 777, not 1000. -/
theorem create_caller_id_wins_cex :
    getField (DiagnosisRepository.create 1000 [("id", vNum 777)] []).1 "id" = some (vNum 777) ∧
    getField (DiagnosisRepository.create 1000 [("id", vNum 777)] []).1 "id" ≠ some (vNum 1000) := by
  constructor
  · rfl
  · rw [show getField (DiagnosisRepository.create 1000 [("id", vNum 777)] []).1 "id"
        = some (vNum 777) from rfl]
    simp

/-- Claim C1 (amended): the record returned by `create` carries the
caller-supplied `id` when `doc` binds one, and the store-assigned identifier
`now` otherwise. -/
theorem create_id_assignment (now : Int) (doc : JsObj) (l : List JsObj)
    (h : (doc.map Prod.fst).Nodup) :
    getField (DiagnosisRepository.create now doc l).1 "id"
      = (getField doc "id").or (some (vNum now)) := by
  have hs := getField_objSpread [("id", vNum now)] doc "id" h
  simpa [DiagnosisRepository.create, getField] using hs

/-- Claim C1 witness: concrete instance of `create_id_assignment`. -/
theorem create_id_assignment_witness :
    getField (DiagnosisRepository.create 1000 [("id", vNum 777)] []).1 "id"
      = (getField [("id", vNum 777)] "id").or (some (vNum 1000)) :=
  create_id_assignment 1000 [("id", vNum 777)] [] (by simp)

/-- Claim C2 counterexample: `update` merges with `\x7b ...d, ...patch \x7d`,
patch fields winning, so a patch carrying `id` rewrites the stored `id`:
updating record `\x7b id: 1 \x7d` with patch `\x7b id: 99 \x7d` under identifier
"1" stores `\x7b id: 99 \x7d`. -/
theorem update_changes_id_cex :
    DiagnosisRepository.update "1" [("id", vNum 99)] [[("id", vNum 1)]]
      = [[("id", vNum 99)]] ∧
    getField [("id", vNum 99)] "id" ≠ getField [("id", vNum 1)] "id" := by
  constructor
  · rfl
  · rw [show getField [("id", vNum 99)] "id" = some (vNum 99) from rfl,
      show getField [("id", vNum 1)] "id" = some (vNum 1) from rfl]
    simp

/-- Claim C2 (amended): `update` preserves every stored record's `id`
provided the patch itself does not bind an `id` field. -/
theorem update_preserves_id_of_patch_without_id (idArg : String) (patch : JsObj)
    (l : List JsObj) (h : "id" ∉ patch.map Prod.fst) :
    (DiagnosisRepository.update idArg patch l).map (fun d => getField d "id")
      = l.map (fun d => getField d "id") := by
  unfold DiagnosisRepository.update
  rw [List.map_map]
  apply List.map_congr_left
  intro d hd
  by_cases hm : idMatches d (parseIntStr idArg)
  · simp [hm, getField_objSpread_not_mem d patch "id" h]
  · simp [hm]

/-- Claim C2 witness: concrete instance of the amended statement. -/
theorem update_preserves_id_of_patch_without_id_witness :
    (DiagnosisRepository.update "1" [("nome", vStr "B")] [[("id", vNum 1)]]).map
        (fun d => getField d "id")
      = ([[("id", vNum 1)]] : List JsObj).map (fun d => getField d "id") :=
  update_preserves_id_of_patch_without_id "1" [("nome", vStr "B")] [[("id", vNum 1)]]
    (by simp)

/-- Claim C3: identifier uniqueness fails in the code. Two `create` calls
falling in the same `Date.now()` millisecond (here 1000) assign the same
identifier to both records, so the persisted collection holds duplicate
ids. -/
theorem create_same_millisecond_duplicate_ids :
    ((DiagnosisRepository.create 1000 [("nome", vStr "B")]
        (DiagnosisRepository.create 1000 [("nome", vStr "A")] []).2).2.map
      (fun d => getField d "id"))
      = [some (vNum 1000), some (vNum 1000)] ∧
    ¬ ([some (vNum 1000), some (vNum 1000)] : List (Option JsValue)).Nodup := by
  constructor
  · rfl
  · simp

/-- Claim C4: a payload that is null, or of no object type at all
(undefined, boolean, number or string), is rejected synchronously with the
invalid-payload error and no outbound call is issued. -/
theorem diagnose_rejects_invalid_payload (c : PredictionClient) (payload : JsValue)
    (t : TransportResult)
    (h : payload = vNull ∨ ((∀ fs, payload ≠ vObj fs) ∧ (∀ es, payload ≠ vArr es))) :
    c.diagnose payload t = ([], Except.error "Payload inválido para predição.") := by
  unfold PredictionClient.diagnose
  rcases h with rfl | ⟨ho, ha⟩
  · rfl
  · cases payload with
    | vNull => rfl
    | vUndefined => rfl
    | vBool b => cases b <;> simp [isFalsy, jsTypeof]
    | vNum n => simp [isFalsy, jsTypeof]
    | vStr s => simp [isFalsy, jsTypeof]
    | vArr es => exact absurd rfl (ha es)
    | vObj fs => exact absurd rfl (ho fs)

/-- Claim C4 witness: the string payload "non-object" is rejected. -/
theorem diagnose_rejects_invalid_payload_witness :
    PredictionClient.diagnose (PredictionClient.make "http://x/") (vStr "non-object")
      (TransportResult.failure "down")
      = ([], Except.error "Payload inválido para predição.") :=
  diagnose_rejects_invalid_payload (PredictionClient.make "http://x/")
    (vStr "non-object") (TransportResult.failure "down")
    (Or.inr ⟨fun _ h => JsValue.noConfusion h, fun _ h => JsValue.noConfusion h⟩)

/-- Claim C5: `retrain` issues exactly one outbound call, to
`base + "/train"` with empty-object body and timeout 20000 ms, and a
transport failure with cause "erro" yields exactly the message
"Falha ao re-treinar modelo: erro". -/
theorem retrain_single_call_and_error (c : PredictionClient) (t : TransportResult) :
    (c.retrain t).1 = [⟨c.baseUrl ++ "/train", vObj [], 20000⟩] ∧
    (t = TransportResult.failure "erro" →
      (c.retrain t).2 = Except.error "Falha ao re-treinar modelo: erro") := by
  constructor
  · cases t <;> rfl
  · intro ht
    subst ht
    rfl

/-- Claim C5 witness: concrete client and failing transport. -/
theorem retrain_single_call_and_error_witness :
    (PredictionClient.retrain (PredictionClient.make "http://api/")
        (TransportResult.failure "erro")).1
      = [⟨(PredictionClient.make "http://api/").baseUrl ++ "/train", vObj [], 20000⟩] ∧
    (PredictionClient.retrain (PredictionClient.make "http://api/")
        (TransportResult.failure "erro")).2
      = Except.error "Falha ao re-treinar modelo: erro" :=
  ⟨(retrain_single_call_and_error (PredictionClient.make "http://api/")
      (TransportResult.failure "erro")).1,
   (retrain_single_call_and_error (PredictionClient.make "http://api/")
      (TransportResult.failure "erro")).2 rfl⟩

/-- Claim C6: whenever the backing storage is missing, unreadable, corrupt,
or holds data that is not an array, `list()` returns the empty collection
(and, being a total function here, raises nothing). -/
theorem list_fail_open (st : StorageState)
    (h : ∀ elems, st ≠ StorageState.holds (vArr elems)) :
    DiagnosisRepository.list st = [] := by
  cases st with
  | missing => rfl
  | unreadable => rfl
  | corrupt => rfl
  | holds v =>
    cases v with
    | vArr es => exact absurd rfl (h es)
    | vNull => rfl
    | vUndefined => rfl
    | vBool b => rfl
    | vNum n => rfl
    | vStr s => rfl
    | vObj fs => rfl

/-- Claim C6 witness: corrupt storage reads as the empty collection. -/
theorem list_fail_open_witness :
    DiagnosisRepository.list StorageState.corrupt = [] :=
  list_fail_open StorageState.corrupt (fun _ h => StorageState.noConfusion h)

/-- Claim C7: when no stored record matches the identifier, `update` and
`delete` hand the collection to `_writeAll` unchanged (both operations
persist unconditionally and raise nothing). -/
theorem update_delete_unmatched_persist_unchanged (idArg : String) (patch : JsObj)
    (l : List JsObj) (h : ∀ d ∈ l, idMatches d (parseIntStr idArg) = false) :
    DiagnosisRepository.update idArg patch l = l ∧
    DiagnosisRepository.delete idArg l = l := by
  constructor
  · unfold DiagnosisRepository.update
    conv_rhs => rw [← List.map_id l]
    apply List.map_congr_left
    intro d hd
    simp [h d hd]
  · unfold DiagnosisRepository.delete
    apply List.filter_eq_self.mpr
    intro d hd
    simp [h d hd]

/-- Claim C7 witness: identifier "999" matches nothing in a one-record
collection with id 1. -/
theorem update_delete_unmatched_persist_unchanged_witness :
    DiagnosisRepository.update "999" [("nome", vStr "N")] [[("id", vNum 1)]]
      = [[("id", vNum 1)]] ∧
    DiagnosisRepository.delete "999" [[("id", vNum 1)]] = [[("id", vNum 1)]] :=
  update_delete_unmatched_persist_unchanged "999" [("nome", vStr "N")] [[("id", vNum 1)]]
    (by intro d hd; simp only [List.mem_singleton] at hd; subst hd; rfl)

/-- Claim C8: `delete` is idempotent in its persisted end state: deleting
the same identifier twice persists the same collection as deleting it
once. -/
theorem delete_idempotent (idArg : String) (l : List JsObj) :
    DiagnosisRepository.delete idArg (DiagnosisRepository.delete idArg l)
      = DiagnosisRepository.delete idArg l := by
  unfold DiagnosisRepository.delete
  apply List.filter_eq_self.mpr
  intro d hd
  exact (List.mem_filter.mp hd).2

/-- Claim C9: matching compares `parseInt(id)` to the stored `id` with
strict equality, so a record whose stored `id` is not a number never
matches: it survives any `update` (unchanged) and any `delete`. -/
theorem nonnumeric_id_never_matched (idArg : String) (patch : JsObj) (l : List JsObj)
    (d : JsObj) (hd : d ∈ l) (h : ∀ n : Int, getField d "id" ≠ some (vNum n)) :
    idMatches d (parseIntStr idArg) = false ∧
    d ∈ DiagnosisRepository.update idArg patch l ∧
    d ∈ DiagnosisRepository.delete idArg l := by
  have hm : idMatches d (parseIntStr idArg) = false := by
    unfold idMatches
    split
    · rename_i n k h1 h2
      exact absurd h1 (h n)
    · rfl
  refine ⟨hm, ?_, ?_⟩
  · exact List.mem_map.mpr ⟨d, hd, by simp [DiagnosisRepository.update, hm]⟩
  · exact List.mem_filter.mpr ⟨hd, by simp [DiagnosisRepository.delete, hm]⟩

/-- Claim C9 witness: a record with the string id "abc" survives update and
delete under identifier "abc". -/
theorem nonnumeric_id_never_matched_witness :
    idMatches [("id", vStr "abc")] (parseIntStr "abc") = false ∧
    [("id", vStr "abc")] ∈ DiagnosisRepository.update "abc" [("x", vNum 1)]
      [[("id", vStr "abc")]] ∧
    [("id", vStr "abc")] ∈ DiagnosisRepository.delete "abc" [[("id", vStr "abc")]] :=
  nonnumeric_id_never_matched "abc" [("x", vNum 1)] [[("id", vStr "abc")]]
    [("id", vStr "abc")] (List.mem_singleton.mpr rfl)
    (fun n hn => by simp [getField] at hn)

/-- Claim C10: `diagnose` rejects exactly the payloads that are falsy or
whose `typeof` is not "object"; in particular every array payload passes
the check and the outbound call is issued. -/
theorem diagnose_guard_characterization (c : PredictionClient) (payload : JsValue)
    (t : TransportResult) :
    ((isFalsy payload || (jsTypeof payload != "object")) = true →
      c.diagnose payload t = ([], Except.error "Payload inválido para predição.")) ∧
    ((isFalsy payload || (jsTypeof payload != "object")) = false →
      (c.diagnose payload t).1 = [⟨c.baseUrl ++ "/predict", payload, 8000⟩]) ∧
    (∀ elems, (c.diagnose (vArr elems) t).1
      = [⟨c.baseUrl ++ "/predict", vArr elems, 8000⟩]) := by
  refine ⟨?_, ?_, ?_⟩
  · intro hg
    unfold PredictionClient.diagnose
    simp [hg]
  · intro hg
    unfold PredictionClient.diagnose
    simp only [hg, Bool.false_eq_true, if_false]
    cases t <;> rfl
  · intro elems
    unfold PredictionClient.diagnose
    cases t <;> rfl

/-- Claim C10 witness: null is rejected, a plain object and the empty array
go through to the predict endpoint. -/
theorem diagnose_guard_characterization_witness :
    PredictionClient.diagnose (PredictionClient.make "http://x") vNull
        (TransportResult.success (vObj []))
      = ([], Except.error "Payload inválido para predição.") ∧
    (PredictionClient.diagnose (PredictionClient.make "http://x")
        (vObj [("a", vNum 1)]) (TransportResult.success (vObj []))).1
      = [⟨(PredictionClient.make "http://x").baseUrl ++ "/predict", vObj [("a", vNum 1)], 8000⟩] ∧
    (PredictionClient.diagnose (PredictionClient.make "http://x") (vArr [])
        (TransportResult.success (vObj []))).1
      = [⟨(PredictionClient.make "http://x").baseUrl ++ "/predict", vArr [], 8000⟩] :=
  ⟨(diagnose_guard_characterization (PredictionClient.make "http://x") vNull
      (TransportResult.success (vObj []))).1 rfl,
   (diagnose_guard_characterization (PredictionClient.make "http://x")
      (vObj [("a", vNum 1)]) (TransportResult.success (vObj []))).2.1 rfl,
   (diagnose_guard_characterization (PredictionClient.make "http://x") (vArr [])
      (TransportResult.success (vObj []))).2.2 []⟩

end HepSys
